import Mathlib

/-!
Shallow embedding of the Arqon inference bridge
(`src/inference_bridge/arqon_inference_bridge.py`).

The embedding covers the data model (`InferenceRequest`, `InferenceResponse`,
the session registry), the two backend adapters' `generate` methods
(`OllamaClient.generate`, `PetalsClient.generate`), and the router
(`ArqonInferenceBridge.create_session`, `close_session`, `infer`,
`process_request`).  Network calls, the tokenizer and the clock are passed in
explicitly as oracle values, so every function is pure and executable; the
functions' bodies follow the Python source line by line.
-/

namespace ArqonBridge

/-- Python `s.startswith(pre)`: `pre` is a character prefix of `s`. -/
def pyStartswith (s pre : String) : Bool := pre.data.isPrefixOf s.data

/-- Python `s[n:]`: drop the first `n` characters of `s`. -/
def pySliceFrom (s : String) (n : Nat) : String := ⟨s.data.drop n⟩

/-- Python `a or b` for an optional string `a`: `b` when `a` is `None` or
the empty string (both falsy), otherwise the string held by `a`. -/
def pyOrStr (a : Option String) (b : String) : String :=
  match a with
  | some s => if s = "" then b else s
  | none => b

/-- Helper for Python `len(s.split())`: counts maximal whitespace-free runs.
The boolean argument records whether the previous character was inside a
word. -/
def countWordsAux : List Char → Bool → Nat
  | [], _ => 0
  | c :: cs, inWord =>
    if c.isWhitespace then countWordsAux cs false
    else (if inWord then 0 else 1) + countWordsAux cs true

/-- Python `len(s.split())`: the number of whitespace-separated words. -/
def countWords (s : String) : Nat := countWordsAux s.data false

/-- The `InferenceRequest` dataclass: `session_id` (0 = no session), prompt,
generation parameters and the optional explicit model override. -/
structure InferenceRequest where
  session_id : Nat
  prompt : String
  max_tokens : Nat
  temperature : ℚ
  model : Option String
deriving DecidableEq

/-- The `InferenceResponse` dataclass.  `backend` is the string tag the
source stores there (an `InferenceBackend` value or the literal `"none"`). -/
structure InferenceResponse where
  session_id : Nat
  text : String
  tokens_generated : Nat
  tokens_per_second : ℚ
  model_used : String
  backend : String
  error : Option String
deriving DecidableEq

/-- Outcome of the HTTP POST inside `OllamaClient.generate`: either the
parsed JSON body — fields `response` and `eval_count`, each possibly absent —
together with the measured elapsed seconds, or a raised exception message. -/
inductive OllamaCall where
  | ok (response : Option String) (eval_count : Option Nat) (elapsed : ℚ)
  | exn (message : String)
deriving DecidableEq

namespace OllamaClient

/-- `OllamaClient.generate` (source lines 147-188): on success reads
`data.get("response", "")` and `data.get("eval_count", len(text.split()))`,
computes tokens per second with a zero-elapsed guard, and reports backend
`"ollama"` with no error; any exception is captured into `error` with empty
text and zero counters. -/
def generate (model prompt : String) (max_tokens : Nat) (temperature : ℚ)
    (call : OllamaCall) : InferenceResponse :=
  match call with
  | .ok response eval_count elapsed =>
    let response_text := response.getD ""
    let ec := eval_count.getD (countWords response_text)
    { session_id := 0
      text := response_text
      tokens_generated := ec
      tokens_per_second := if elapsed > 0 then (ec : ℚ) / elapsed else 0
      model_used := model
      backend := "ollama"
      error := none }
  | .exn e =>
    { session_id := 0
      text := ""
      tokens_generated := 0
      tokens_per_second := 0
      model_used := model
      backend := "ollama"
      error := some e }

end OllamaClient

/-- Oracle for one `PetalsClient.generate` call: whether the model is in (or
can be lazily loaded into) the client's model cache, the decoded generation
output, the tokenizer's encoded-length function, the measured elapsed
seconds, and an optional raised exception. -/
structure PetalsCall where
  loaded : Bool
  decoded : String
  encodeLen : String → Nat
  elapsed : ℚ
  exn : Option String

namespace PetalsClient

/-- `PetalsClient.SUPPORTED_MODELS` (source lines 194-199). -/
def SUPPORTED_MODELS : List String :=
  ["meta-llama/Meta-Llama-3.1-70B-Instruct",
   "meta-llama/Meta-Llama-3.1-8B-Instruct",
   "mistralai/Mixtral-8x22B-Instruct-v0.1",
   "mistralai/Mistral-7B-Instruct-v0.3"]

/-- `PetalsClient.generate` (source lines 247-298): if the model is not
loaded and lazy loading fails, returns the fixed `"Model not loaded"` error;
otherwise decodes the output, removes the first `len(prompt)` characters
(`text = text[len(prompt):]`), counts tokens by re-encoding, and computes
tokens per second with a zero-elapsed guard.  Any exception is captured into
`error` with empty text and zero counters. -/
def generate (model prompt : String) (max_tokens : Nat) (temperature : ℚ)
    (call : PetalsCall) : InferenceResponse :=
  if !call.loaded then
    { session_id := 0
      text := ""
      tokens_generated := 0
      tokens_per_second := 0
      model_used := model
      backend := "petals"
      error := some "Model not loaded" }
  else
    match call.exn with
    | some e =>
      { session_id := 0
        text := ""
        tokens_generated := 0
        tokens_per_second := 0
        model_used := model
        backend := "petals"
        error := some e }
    | none =>
      let text := pySliceFrom call.decoded prompt.length
      let tokens := call.encodeLen text
      { session_id := 0
        text := text
        tokens_generated := tokens
        tokens_per_second := if call.elapsed > 0 then (tokens : ℚ) / call.elapsed else 0
        model_used := model
        backend := "petals"
        error := none }

end PetalsClient

/-- One entry of the `self.sessions` dictionary: sticky model, creation time
(`time.time()` passed in as a natural-number oracle) and the request
counter. -/
structure Session where
  model : String
  created : Nat
  requests : Nat
deriving DecidableEq

/-- Python `d.get(k)` on an integer-keyed dictionary modelled as an
association list (first binding wins). -/
def dictGet {β : Type} (k : Nat) : List (Nat × β) → Option β
  | [] => none
  | (j, v) :: d => if j = k then some v else dictGet k d

/-- Python `del d[k]`: remove every binding of `k`. -/
def dictDel {β : Type} (k : Nat) : List (Nat × β) → List (Nat × β)
  | [] => []
  | (j, v) :: d => if j = k then dictDel k d else (j, v) :: dictDel k d

/-- Python `d[k] = v`: bind `k` to `v`, dropping any previous binding. -/
def dictSet {β : Type} (k : Nat) (v : β) (d : List (Nat × β)) : List (Nat × β) :=
  (k, v) :: dictDel k d

/-- In-place update of the value bound to `k` (Python `d[k]["requests"] += 1`
style mutation). -/
def dictModify {β : Type} (k : Nat) (f : β → β) : List (Nat × β) → List (Nat × β)
  | [] => []
  | (j, v) :: d => if j = k then (j, f v) :: dictModify k f d else (j, v) :: dictModify k f d

/-- Mutable state of `ArqonInferenceBridge`: the session dictionary, the id
counter and the process default model. -/
structure Bridge where
  sessions : List (Nat × Session)
  next_session_id : Nat
  default_model : String
deriving DecidableEq

/-- The bridge state right after `__init__` (source lines 314-321):
no sessions, counter at 1, default model `"llama3.2:latest"`. -/
def initBridge : Bridge :=
  { sessions := [], next_session_id := 1, default_model := "llama3.2:latest" }

/-- Availability flags of the two adapters plus the per-call oracles feeding
their `generate` methods. -/
structure Backends where
  ollama_available : Bool
  petals_available : Bool
  ollama_call : String → String → Nat → ℚ → OllamaCall
  petals_call : String → String → Nat → ℚ → PetalsCall

/-- `ArqonInferenceBridge.create_session` (source lines 389-400): allocate
the current counter value, advance the counter, store the session with
sticky model `model or self.default_model` and a zero request count. -/
def create_session (br : Bridge) (model : Option String) (now : Nat) : Nat × Bridge :=
  let session_id := br.next_session_id
  (session_id,
    { br with
      next_session_id := br.next_session_id + 1
      sessions := dictSet session_id
        { model := pyOrStr model br.default_model, created := now, requests := 0 }
        br.sessions })

/-- `ArqonInferenceBridge.close_session` (source lines 402-405): delete the
entry when present, otherwise do nothing. -/
def close_session (br : Bridge) (session_id : Nat) : Bridge :=
  { br with sessions := dictDel session_id br.sessions }

/-- Model choice of `ArqonInferenceBridge.infer` (source lines 410-414):
`request.model or sessions[sid]["model"]` for a live session, else
`request.model or self.default_model`. -/
def resolvedModel (br : Bridge) (request : InferenceRequest) : String :=
  match dictGet request.session_id br.sessions with
  | some sess => pyOrStr request.model sess.model
  | none => pyOrStr request.model br.default_model

/-- Session-counter side effect of `ArqonInferenceBridge.infer` (source line
412): `sessions[sid]["requests"] += 1` when the session is live. -/
def bumpRequests (br : Bridge) (request : InferenceRequest) : Bridge :=
  match dictGet request.session_id br.sessions with
  | some _ =>
    { br with
      sessions := dictModify request.session_id
        (fun s => { s with requests := s.requests + 1 }) br.sessions }
  | none => br

/-- The fixed error string of the no-backend response (source line 434). -/
def noBackendError : String :=
  "No inference backend available. Install Ollama (curl -fsSL https://ollama.com/install.sh | sh) or Petals (pip install petals transformers)"

/-- `ArqonInferenceBridge.infer` (source lines 407-438): resolve the model,
bump the live session's counter, route — Ollama when available and the model
does not start with `"meta-llama/"`, else Petals when available and the model
is in `SUPPORTED_MODELS`, else the fixed no-backend error response — and
stamp the request's `session_id` onto the response. -/
def infer (bk : Backends) (br : Bridge) (request : InferenceRequest) :
    InferenceResponse × Bridge :=
  let model := resolvedModel br request
  let br1 := bumpRequests br request
  let response :=
    if bk.ollama_available && !(pyStartswith model "meta-llama/") then
      OllamaClient.generate model request.prompt request.max_tokens request.temperature
        (bk.ollama_call model request.prompt request.max_tokens request.temperature)
    else if bk.petals_available && PetalsClient.SUPPORTED_MODELS.contains model then
      PetalsClient.generate model request.prompt request.max_tokens request.temperature
        (bk.petals_call model request.prompt request.max_tokens request.temperature)
    else
      { session_id := request.session_id
        text := ""
        tokens_generated := 0
        tokens_per_second := 0
        model_used := model
        backend := "none"
        error := some noBackendError }
  ({ response with session_id := request.session_id }, br1)

/-- Parsed JSON request dictionary as consumed by `process_request`: each
field models `request.get(key)`, with `none` for a missing key. -/
structure RawRequest where
  action : Option String
  session_id : Option Nat
  prompt : Option String
  max_tokens : Option Nat
  temperature : Option ℚ
  model : Option String
deriving DecidableEq

/-- Reply written back by `process_request`.  Branches whose payloads come
entirely from external collaborators (system check, catalog listing, model
pulls) are abstracted to their dispatch tag; the session and inference
branches carry their full payloads. -/
inductive Reply where
  | systemCheck
  | listModels
  | pullModel (model : String)
  | pullRecommended
  | sessionCreated (session_id : Nat)
  | closeOk
  | inferReply (response : InferenceResponse)
  | unknownAction (action : String)
deriving DecidableEq

/-- `ArqonInferenceBridge.process_request` (source lines 464-507): dispatch
on `request.get("action", "infer")`; the `close_session` branch always
replies with success; the `infer` branch fills in the request defaults
(`session_id` 0, empty prompt, 256 tokens, temperature 0.7); an unrecognized
action yields the unknown-action error reply. -/
def process_request (bk : Backends) (br : Bridge) (now : Nat) (request : RawRequest) :
    Reply × Bridge :=
  let action := request.action.getD "infer"
  if action = "system_check" then (.systemCheck, br)
  else if action = "list_models" then (.listModels, br)
  else if action = "pull_model" then (.pullModel (request.model.getD ""), br)
  else if action = "pull_recommended" then (.pullRecommended, br)
  else if action = "create_session" then
    let r := create_session br request.model now
    (.sessionCreated r.1, r.2)
  else if action = "close_session" then
    (.closeOk, close_session br (request.session_id.getD 0))
  else if action = "infer" then
    let r := infer bk br
      { session_id := request.session_id.getD 0
        prompt := request.prompt.getD ""
        max_tokens := request.max_tokens.getD 256
        temperature := request.temperature.getD (7/10)
        model := request.model }
    (.inferReply r.1, r.2)
  else (.unknownAction action, br)

/-- Modelled from the spec: the spec's distributed-backend naming convention
— "a namespaced identifier, e.g. containing an organization/model path
separator" — read as: the name contains the `/` separator. -/
def isNamespacedSpec (m : String) : Bool := m.data.contains '/'

/-- Modelled from the spec: the backend the spec's routing rules (section
4.3, steps a-c) select, using the spec's namespacing convention.  Written
from the spec's words for comparison with `infer`. -/
def specRoutedBackend (ollama_available petals_available : Bool) (model : String) : String :=
  if ollama_available && !(isNamespacedSpec model) then "ollama"
  else if petals_available && PetalsClient.SUPPORTED_MODELS.contains model then "petals"
  else "none"

/-! Dictionary lemmas. -/

theorem dictGet_del_self {β : Type} (k : Nat) (d : List (Nat × β)) :
    dictGet k (dictDel k d) = none := by
  induction d with
  | nil => rfl
  | cons a t ih =>
    rcases a with ⟨j, v⟩
    by_cases h : j = k <;> simp [dictDel, dictGet, h, ih]

theorem dictGet_del_ne {β : Type} {j k : Nat} (h : j ≠ k) (d : List (Nat × β)) :
    dictGet j (dictDel k d) = dictGet j d := by
  induction d with
  | nil => rfl
  | cons a t ih =>
    rcases a with ⟨i, v⟩
    by_cases hi : i = k
    · subst hi
      simp [dictDel, dictGet, Ne.symm h, ih]
    · by_cases hj : i = j <;> simp [dictDel, dictGet, hi, hj, h, ih]

theorem dictDel_del {β : Type} (k : Nat) (d : List (Nat × β)) :
    dictDel k (dictDel k d) = dictDel k d := by
  induction d with
  | nil => rfl
  | cons a t ih =>
    rcases a with ⟨i, v⟩
    by_cases h : i = k <;> simp [dictDel, h, ih]

theorem dictDel_of_get_none {β : Type} {k : Nat} {d : List (Nat × β)}
    (h : dictGet k d = none) : dictDel k d = d := by
  induction d with
  | nil => rfl
  | cons a t ih =>
    rcases a with ⟨i, v⟩
    by_cases hi : i = k
    · simp [dictGet, hi] at h
    · simp [dictGet, hi] at h
      simp [dictDel, hi, ih h]

theorem dictGet_modify_self {β : Type} (k : Nat) (f : β → β) (d : List (Nat × β)) :
    dictGet k (dictModify k f d) = (dictGet k d).map f := by
  induction d with
  | nil => rfl
  | cons a t ih =>
    rcases a with ⟨i, v⟩
    by_cases h : i = k <;> simp [dictModify, dictGet, h, ih]

theorem dictGet_set_self {β : Type} (k : Nat) (v : β) (d : List (Nat × β)) :
    dictGet k (dictSet k v d) = some v := by
  simp [dictSet, dictGet]

theorem dictGet_set_ne {β : Type} {j k : Nat} (h : j ≠ k) (v : β) (d : List (Nat × β)) :
    dictGet j (dictSet k v d) = dictGet j d := by
  simp [dictSet, dictGet, Ne.symm h, dictGet_del_ne h]

/-! Facts about the adapters and the router used by several claims. -/

theorem ollama_generate_backend (model prompt : String) (max_tokens : Nat)
    (temperature : ℚ) (call : OllamaCall) :
    (OllamaClient.generate model prompt max_tokens temperature call).backend = "ollama" := by
  cases call <;> rfl

theorem petals_generate_backend (model prompt : String) (max_tokens : Nat)
    (temperature : ℚ) (call : PetalsCall) :
    (PetalsClient.generate model prompt max_tokens temperature call).backend = "petals" := by
  unfold PetalsClient.generate
  by_cases h : call.loaded
  · cases hx : call.exn <;> simp [h, hx]
  · simp [h]

theorem infer_snd (bk : Backends) (br : Bridge) (request : InferenceRequest) :
    (infer bk br request).2 = bumpRequests br request := rfl

theorem infer_backend (bk : Backends) (br : Bridge) (request : InferenceRequest) :
    (infer bk br request).1.backend =
      if bk.ollama_available && !(pyStartswith (resolvedModel br request) "meta-llama/") then
        "ollama"
      else if bk.petals_available &&
          PetalsClient.SUPPORTED_MODELS.contains (resolvedModel br request) then
        "petals"
      else "none" := by
  simp only [infer]
  by_cases h1 :
      (bk.ollama_available && !(pyStartswith (resolvedModel br request) "meta-llama/")) = true
  · rw [if_pos h1, if_pos h1]
    exact ollama_generate_backend _ _ _ _ _
  · by_cases h2 :
        (bk.petals_available &&
          PetalsClient.SUPPORTED_MODELS.contains (resolvedModel br request)) = true
    · rw [if_neg h1, if_neg h1, if_pos h2, if_pos h2]
      exact petals_generate_backend _ _ _ _ _
    · rw [if_neg h1, if_neg h1, if_neg h2, if_neg h2]

/-- Concatenating then removing the first `len(prompt)` characters returns
the remainder: the Petals echo-stripping step. -/
theorem pySliceFrom_append (p r : String) : pySliceFrom (p ++ r) p.length = r := by
  cases p with
  | mk pd =>
    cases r with
    | mk rd =>
      show (⟨(pd ++ rd).drop pd.length⟩ : String) = ⟨rd⟩
      rw [List.drop_left]

/-! Concrete fixtures used by counterexamples and witnesses. -/

/-- Backends with both adapters up; the Ollama oracle answers with a fixed
successful body, the Petals oracle with an idle loaded model. -/
def okBackends : Backends :=
  { ollama_available := true
    petals_available := true
    ollama_call := fun _ _ _ _ => .ok (some "ok") (some 1) 0
    petals_call := fun _ _ _ _ =>
      { loaded := true, decoded := "", encodeLen := fun _ => 0, elapsed := 0, exn := none } }

/-- Backends with only Ollama up. -/
def ollamaOnlyBackends : Backends :=
  { okBackends with petals_available := false }

/-- Backends with only Petals up. -/
def petalsOnlyBackends : Backends :=
  { okBackends with ollama_available := false }

/-- Backends with both adapters down. -/
def noBackends : Backends :=
  { okBackends with ollama_available := false, petals_available := false }

/-- A sessionless request for a Petals-supported `mistralai/` model. -/
def mistralReq : InferenceRequest :=
  { session_id := 0
    prompt := "hi"
    max_tokens := 16
    temperature := 7/10
    model := some "mistralai/Mistral-7B-Instruct-v0.3" }

/-- A sessionless request for a Petals-supported `meta-llama/` model. -/
def metaReq : InferenceRequest :=
  { mistralReq with model := some "meta-llama/Meta-Llama-3.1-8B-Instruct" }

/-- A sessionless request with no explicit model. -/
def defaultReq : InferenceRequest :=
  { mistralReq with model := none }

/-- A bridge with one live session (id 1) pinned to `"llama3.1:8b"`. -/
def sampleBridge : Bridge :=
  { sessions := [(1, { model := "llama3.1:8b", created := 5, requests := 0 })]
    next_session_id := 2
    default_model := "llama3.2:latest" }

/-- A Petals oracle with nothing loaded. -/
def idlePetalsCall : PetalsCall :=
  { loaded := false, decoded := "", encodeLen := fun _ => 0, elapsed := 0, exn := none }

/-- A Petals oracle whose decoded output echoes the prompt `"hi"`. -/
def echoPetalsCall : PetalsCall :=
  { loaded := true, decoded := "hi there", encodeLen := fun s => s.length
    elapsed := 0, exn := none }

/-- C1: counterexample.  For the request naming the namespaced,
Petals-supported model `"mistralai/Mistral-7B-Instruct-v0.3"` with both
adapters available, the claim's rules route to the distributed adapter (rule
a is blocked by the namespaced name, rule b matches), but the code routes to
the local adapter: `infer` only tests the literal prefix `"meta-llama/"`,
not general namespacing. -/
theorem C1_counterexample :
    isNamespacedSpec (resolvedModel initBridge mistralReq) = true ∧
    okBackends.petals_available = true ∧
    PetalsClient.SUPPORTED_MODELS.contains (resolvedModel initBridge mistralReq) = true ∧
    (infer okBackends initBridge mistralReq).1.backend = "ollama" ∧
    specRoutedBackend okBackends.ollama_available okBackends.petals_available
        (resolvedModel initBridge mistralReq) ≠
      (infer okBackends initBridge mistralReq).1.backend := by
  decide

/-- C1 (amended): the routing priority holds with the code's actual
distributed-model convention — the literal prefix `"meta-llama/"` in place
of the spec's general namespacing test.  If the local adapter is available
and the effective model does not start with `"meta-llama/"`, the request is
served by the local adapter; otherwise, if the distributed adapter is
available and the effective model is in its fixed supported list, by the
distributed adapter. -/
theorem C1_routing_amended (bk : Backends) (br : Bridge) (request : InferenceRequest) :
    (bk.ollama_available = true →
      pyStartswith (resolvedModel br request) "meta-llama/" = false →
      (infer bk br request).1.backend = "ollama") ∧
    ((bk.ollama_available = false ∨
        pyStartswith (resolvedModel br request) "meta-llama/" = true) →
      bk.petals_available = true →
      PetalsClient.SUPPORTED_MODELS.contains (resolvedModel br request) = true →
      (infer bk br request).1.backend = "petals") := by
  constructor
  · intro ho hm
    rw [infer_backend, if_pos (by rw [ho, hm]; rfl)]
  · intro hor hp hs
    have hb1 :
        (bk.ollama_available && !(pyStartswith (resolvedModel br request) "meta-llama/")) =
          false := by
      rcases hor with h | h <;> simp [h]
    rw [infer_backend, if_neg (by rw [hb1]; exact Bool.false_ne_true),
      if_pos (by rw [hp, hs]; rfl)]

/-- C1 witness: the default-model request is served by Ollama when it is up,
and the `meta-llama/` request by Petals when only Petals is up. -/
theorem C1_routing_amended_witness :
    (infer okBackends initBridge defaultReq).1.backend = "ollama" ∧
    (infer petalsOnlyBackends initBridge metaReq).1.backend = "petals" :=
  ⟨(C1_routing_amended okBackends initBridge defaultReq).1 rfl (by decide),
   (C1_routing_amended petalsOnlyBackends initBridge metaReq).2 (Or.inl rfl) rfl (by decide)⟩

/-- Error responses of the Ollama adapter carry empty text and a zero token
count. -/
theorem ollama_error_empty (model prompt : String) (mt : Nat) (t : ℚ) (c : OllamaCall) :
    (OllamaClient.generate model prompt mt t c).error ≠ none →
    (OllamaClient.generate model prompt mt t c).text = "" ∧
    (OllamaClient.generate model prompt mt t c).tokens_generated = 0 := by
  cases c with
  | ok r ec e => exact fun h => absurd rfl h
  | exn e => exact fun _ => ⟨rfl, rfl⟩

/-- Error responses of the Petals adapter carry empty text and a zero token
count. -/
theorem petals_error_empty (model prompt : String) (mt : Nat) (t : ℚ) (c : PetalsCall) :
    (PetalsClient.generate model prompt mt t c).error ≠ none →
    (PetalsClient.generate model prompt mt t c).text = "" ∧
    (PetalsClient.generate model prompt mt t c).tokens_generated = 0 := by
  unfold PetalsClient.generate
  by_cases hl : c.loaded
  · rcases hx : c.exn with _ | e <;> simp [hl, hx]
  · simp [hl]

/-- Error responses of the router carry empty text and a zero token count. -/
theorem infer_error_empty (bk : Backends) (br : Bridge) (request : InferenceRequest) :
    (infer bk br request).1.error ≠ none →
    (infer bk br request).1.text = "" ∧
    (infer bk br request).1.tokens_generated = 0 := by
  simp only [infer]
  by_cases h1 :
      (bk.ollama_available && !(pyStartswith (resolvedModel br request) "meta-llama/")) = true
  · rw [if_pos h1]
    exact fun h => ollama_error_empty _ _ _ _ _ h
  · by_cases h2 :
        (bk.petals_available &&
          PetalsClient.SUPPORTED_MODELS.contains (resolvedModel br request)) = true
    · rw [if_neg h1, if_pos h2]
      exact fun h => petals_error_empty _ _ _ _ _ h
    · rw [if_neg h1, if_neg h2]
      exact fun _ => ⟨rfl, rfl⟩

/-- C3: counterexample.  An Ollama success whose JSON body carries an empty
`response` field yields a response with empty text and no error, so the
claimed "exactly one of (text non-empty, error absent) or (error present,
text empty)" fails: neither disjunct holds. -/
theorem C3_counterexample :
    (OllamaClient.generate "llama3.2:latest" "hi" 256 (7/10) (.ok (some "") none 0)).text = "" ∧
    (OllamaClient.generate "llama3.2:latest" "hi" 256 (7/10) (.ok (some "") none 0)).error = none ∧
    ¬ (((OllamaClient.generate "llama3.2:latest" "hi" 256 (7/10) (.ok (some "") none 0)).text ≠ "" ∧
        (OllamaClient.generate "llama3.2:latest" "hi" 256 (7/10) (.ok (some "") none 0)).error = none) ∨
       ((OllamaClient.generate "llama3.2:latest" "hi" 256 (7/10) (.ok (some "") none 0)).error ≠ none ∧
        (OllamaClient.generate "llama3.2:latest" "hi" 256 (7/10) (.ok (some "") none 0)).text = "")) := by
  decide

/-- C3 (amended): at most one side holds — whenever a response produced by
either adapter's generate or by `infer` carries an error, its text is empty
and its token count zero; but a success response may have empty text with no
error (empty backend completion), so the two sides are not exhaustive. -/
theorem C3_error_excludes_text (model prompt : String) (mt : Nat) (t : ℚ)
    (oc : OllamaCall) (pc : PetalsCall)
    (bk : Backends) (br : Bridge) (request : InferenceRequest) :
    ((OllamaClient.generate model prompt mt t oc).error ≠ none →
      (OllamaClient.generate model prompt mt t oc).text = "" ∧
      (OllamaClient.generate model prompt mt t oc).tokens_generated = 0) ∧
    ((PetalsClient.generate model prompt mt t pc).error ≠ none →
      (PetalsClient.generate model prompt mt t pc).text = "" ∧
      (PetalsClient.generate model prompt mt t pc).tokens_generated = 0) ∧
    ((infer bk br request).1.error ≠ none →
      (infer bk br request).1.text = "" ∧
      (infer bk br request).1.tokens_generated = 0) :=
  ⟨ollama_error_empty model prompt mt t oc,
   petals_error_empty model prompt mt t pc,
   infer_error_empty bk br request⟩

/-- C3 witness: an Ollama exception produces empty text and zero tokens. -/
theorem C3_error_excludes_text_witness :
    (OllamaClient.generate "m" "p" 1 0 (.exn "boom")).text = "" ∧
    (OllamaClient.generate "m" "p" 1 0 (.exn "boom")).tokens_generated = 0 :=
  (C3_error_excludes_text "m" "p" 1 0 (.exn "boom") idlePetalsCall
      okBackends initBridge defaultReq).1 (by decide)

/-- C5: counterexample.  With only the local adapter up and the namespaced
model `"mistralai/Mistral-7B-Instruct-v0.3"`, the claim's conditions hold
(the model is namespaced, so rule a should not apply; the distributed
adapter is down, so rule b cannot), yet the code serves the request through
Ollama: the response backend is `"ollama"` with no error, not `"none"`. -/
theorem C5_counterexample :
    (ollamaOnlyBackends.ollama_available = false ∨
      isNamespacedSpec (resolvedModel initBridge mistralReq) = true) ∧
    (ollamaOnlyBackends.petals_available = false ∨
      PetalsClient.SUPPORTED_MODELS.contains (resolvedModel initBridge mistralReq) = false) ∧
    (infer ollamaOnlyBackends initBridge mistralReq).1.backend = "ollama" ∧
    (infer ollamaOnlyBackends initBridge mistralReq).1.error = none ∧
    (infer ollamaOnlyBackends initBridge mistralReq).1.backend ≠ "none" := by
  decide

/-- C5 (amended): whenever neither of the code's routing guards matches —
the local adapter is unavailable or the effective model starts with
`"meta-llama/"`, and the distributed adapter is unavailable or the model is
not in its supported list — `infer` returns the NONE-backend response with
the fixed, non-empty install-advice error, zero token counts and empty text,
as an ordinary return value. -/
theorem C5_none_amended (bk : Backends) (br : Bridge) (request : InferenceRequest)
    (h1 : bk.ollama_available = false ∨
      pyStartswith (resolvedModel br request) "meta-llama/" = true)
    (h2 : bk.petals_available = false ∨
      PetalsClient.SUPPORTED_MODELS.contains (resolvedModel br request) = false) :
    (infer bk br request).1 =
      { session_id := request.session_id
        text := ""
        tokens_generated := 0
        tokens_per_second := 0
        model_used := resolvedModel br request
        backend := "none"
        error := some noBackendError } ∧
    noBackendError ≠ "" := by
  have hb1 :
      (bk.ollama_available && !(pyStartswith (resolvedModel br request) "meta-llama/")) =
        false := by
    rcases h1 with h | h <;> simp [h]
  have hb2 :
      (bk.petals_available && PetalsClient.SUPPORTED_MODELS.contains (resolvedModel br request)) =
        false := by
    rcases h2 with h | h
    · simp [h]
    · rw [h, Bool.and_false]
  constructor
  · simp only [infer]
    rw [if_neg (by rw [hb1]; exact Bool.false_ne_true),
      if_neg (by rw [hb2]; exact Bool.false_ne_true)]
  · decide

/-- C5 witness: both adapters down yields the fixed NONE response. -/
theorem C5_none_amended_witness :
    (infer noBackends initBridge mistralReq).1 =
      { session_id := 0
        text := ""
        tokens_generated := 0
        tokens_per_second := 0
        model_used := "mistralai/Mistral-7B-Instruct-v0.3"
        backend := "none"
        error := some noBackendError } ∧
    noBackendError ≠ "" :=
  C5_none_amended noBackends initBridge mistralReq (Or.inl rfl) (Or.inl rfl)

/-- C6: counterexample.  The Ollama adapter performs no prompt stripping:
with prompt `"hi"` and backend output `"hi there"` (which includes the
prompt verbatim as a prefix), the returned text is the full output and still
begins with the prompt. -/
theorem C6_counterexample :
    pyStartswith "hi there" "hi" = true ∧
    (OllamaClient.generate "llama3.2:latest" "hi" 256 (7/10)
        (.ok (some "hi there") (some 2) 0)).text = "hi there" ∧
    pyStartswith
      (OllamaClient.generate "llama3.2:latest" "hi" 256 (7/10)
        (.ok (some "hi there") (some 2) 0)).text "hi" = true := by
  decide

/-- C6 (amended): only the Petals adapter strips the echoed prompt — it
removes exactly the first `len(prompt)` characters of the decoded output, so
when the output is the prompt followed by a remainder the returned text is
that remainder; the Ollama adapter returns the backend's `response` field
verbatim, with no stripping. -/
theorem C6_strip_amended (model prompt rest raw : String) (mt : Nat) (t : ℚ)
    (pc : PetalsCall) (ec : Option Nat) (e : ℚ)
    (hl : pc.loaded = true) (hx : pc.exn = none) (hd : pc.decoded = prompt ++ rest) :
    (PetalsClient.generate model prompt mt t pc).text = rest ∧
    (OllamaClient.generate model prompt mt t (.ok (some raw) ec e)).text = raw := by
  constructor
  · simp [PetalsClient.generate, hl, hx, hd, pySliceFrom_append]
  · rfl

/-- C6 witness: the Petals adapter turns decoded `"hi there"` with prompt
`"hi"` into `" there"`; the Ollama adapter returns `"hi there"` verbatim. -/
theorem C6_strip_amended_witness :
    (PetalsClient.generate "m" "hi" 8 0 echoPetalsCall).text = " there" ∧
    (OllamaClient.generate "m" "hi" 8 0 (.ok (some "hi there") none 0)).text = "hi there" :=
  C6_strip_amended "m" "hi" " there" "hi there" 8 0 echoPetalsCall none 0 rfl rfl (by decide)

/-- C7: both adapters compute `tokens_per_second` as
`tokens_generated / elapsed`, returning 0 when the measured elapsed time is
zero, and the exception path also reports 0. -/
theorem C7_tokens_per_second (model prompt : String) (mt : Nat) (t : ℚ)
    (response : Option String) (ec : Option Nat) (e : ℚ) (msg : String) (pc : PetalsCall) :
    (0 < e →
      (OllamaClient.generate model prompt mt t (.ok response ec e)).tokens_per_second =
        ((OllamaClient.generate model prompt mt t (.ok response ec e)).tokens_generated : ℚ) / e) ∧
    (e = 0 →
      (OllamaClient.generate model prompt mt t (.ok response ec e)).tokens_per_second = 0) ∧
    (OllamaClient.generate model prompt mt t (.exn msg)).tokens_per_second = 0 ∧
    (pc.loaded = true → pc.exn = none →
      (0 < pc.elapsed →
        (PetalsClient.generate model prompt mt t pc).tokens_per_second =
          ((PetalsClient.generate model prompt mt t pc).tokens_generated : ℚ) / pc.elapsed) ∧
      (pc.elapsed = 0 →
        (PetalsClient.generate model prompt mt t pc).tokens_per_second = 0)) := by
  refine ⟨?_, ?_, rfl, ?_⟩
  · intro h
    simp only [OllamaClient.generate]
    rw [if_pos h]
  · intro h
    subst h
    simp only [OllamaClient.generate]
    rw [if_neg (lt_irrefl 0)]
  · intro hl hx
    constructor
    · intro h
      simp only [PetalsClient.generate, hl, hx]
      simp only [Bool.not_true, Bool.false_eq_true, if_false]
      rw [if_pos h]
    · intro h
      simp only [PetalsClient.generate, hl, hx]
      simp only [Bool.not_true, Bool.false_eq_true, if_false]
      rw [h, if_neg (lt_irrefl 0)]

/-- C7 witness: a two-second Ollama call divides, a zero-second one reports
zero. -/
theorem C7_tokens_per_second_witness :
    ((0:ℚ) < 2 ∧
      (OllamaClient.generate "m" "p" 4 0 (.ok (some "a b c") none 2)).tokens_per_second =
        ((OllamaClient.generate "m" "p" 4 0 (.ok (some "a b c") none 2)).tokens_generated : ℚ) / 2) ∧
    (OllamaClient.generate "m" "p" 4 0 (.ok (some "a b c") none 0)).tokens_per_second = 0 :=
  ⟨⟨by norm_num,
    (C7_tokens_per_second "m" "p" 4 0 (some "a b c") none 2 "x" idlePetalsCall).1 (by norm_num)⟩,
   (C7_tokens_per_second "m" "p" 4 0 (some "a b c") none 0 "x" idlePetalsCall).2.1 rfl⟩

/-- C2: model resolution returns the explicit model when a (non-empty, hence
truthy) one is present; else, for a live session, the session's sticky model
while incrementing its request counter; else the process default — and a
closed session id looks up as absent, so it falls back to the default rather
than erroring. -/
theorem C2_resolve_model (bk : Backends) (br : Bridge) (request : InferenceRequest) :
    (∀ m, request.model = some m → m ≠ "" → resolvedModel br request = m) ∧
    (request.model = none →
      (∀ sess, dictGet request.session_id br.sessions = some sess →
        resolvedModel br request = sess.model ∧
        dictGet request.session_id (infer bk br request).2.sessions =
          some { sess with requests := sess.requests + 1 }) ∧
      (dictGet request.session_id br.sessions = none →
        resolvedModel br request = br.default_model)) ∧
    (∀ sid, dictGet sid (close_session br sid).sessions = none) := by
  refine ⟨?_, ?_, fun sid => dictGet_del_self sid br.sessions⟩
  · intro m hm hne
    cases hs : dictGet request.session_id br.sessions with
    | none => simp [resolvedModel, hs, hm, pyOrStr, hne]
    | some sess => simp [resolvedModel, hs, hm, pyOrStr, hne]
  · intro hnone
    constructor
    · intro sess hsess
      constructor
      · simp [resolvedModel, hsess, hnone, pyOrStr]
      · rw [infer_snd]
        simp only [bumpRequests, hsess]
        rw [dictGet_modify_self, hsess]
        rfl
    · intro hs
      simp [resolvedModel, hs, hnone, pyOrStr]

/-- C2 witness: a live session resolves to its sticky model and its request
counter is bumped. -/
theorem C2_resolve_model_witness :
    resolvedModel sampleBridge { defaultReq with session_id := 1 } = "llama3.1:8b" ∧
    dictGet 1 (infer okBackends sampleBridge { defaultReq with session_id := 1 }).2.sessions =
      some { model := "llama3.1:8b", created := 5, requests := 1 } :=
  ((C2_resolve_model okBackends sampleBridge { defaultReq with session_id := 1 }).2.1 rfl).1
    { model := "llama3.1:8b", created := 5, requests := 0 } (by decide)

/-- C4: a request-level override is transient.  After creating a session
with sticky model M, an infer on it with explicit model M2 resolves to M2
yet leaves the stored sticky model M untouched, so a later infer on the same
session without an explicit model still resolves to M. -/
theorem C4_override_transient (bk : Backends) (br : Bridge) (M M2 : String) (now : Nat)
    (req2 req3 : InferenceRequest) (hM : M ≠ "") (hM2 : M2 ≠ "")
    (h2sid : req2.session_id = (create_session br (some M) now).1)
    (h2model : req2.model = some M2)
    (h3sid : req3.session_id = (create_session br (some M) now).1)
    (h3model : req3.model = none) :
    resolvedModel (create_session br (some M) now).2 req2 = M2 ∧
    (dictGet (create_session br (some M) now).1
        (infer bk (create_session br (some M) now).2 req2).2.sessions).map Session.model =
      some M ∧
    resolvedModel (infer bk (create_session br (some M) now).2 req2).2 req3 = M := by
  have hstore :
      dictGet (create_session br (some M) now).1 (create_session br (some M) now).2.sessions =
        some { model := M, created := now, requests := 0 } := by
    simp only [create_session]
    rw [dictGet_set_self]
    simp [pyOrStr, hM]
  have hbump :
      (infer bk (create_session br (some M) now).2 req2).2.sessions =
        dictModify req2.session_id (fun s => { s with requests := s.requests + 1 })
          (create_session br (some M) now).2.sessions := by
    rw [infer_snd]
    rw [bumpRequests, h2sid, hstore]
  refine ⟨?_, ?_, ?_⟩
  · simp [resolvedModel, h2sid, hstore, h2model, pyOrStr, hM2]
  · rw [hbump, ← h2sid, dictGet_modify_self, h2sid, hstore]
    rfl
  · simp [resolvedModel, h3sid, hbump, ← h2sid, dictGet_modify_self]
    rw [h2sid, hstore]
    simp [h3model, pyOrStr]

/-- C4 witness: create a session pinned to `"llama3.1:8b"`, infer with
explicit `"qwen2.5:14b"`, then infer without a model: the override is used
once and the sticky model survives. -/
theorem C4_override_transient_witness :
    resolvedModel (create_session initBridge (some "llama3.1:8b") 0).2
        { defaultReq with session_id := 1, model := some "qwen2.5:14b" } = "qwen2.5:14b" ∧
    (dictGet 1 (infer okBackends (create_session initBridge (some "llama3.1:8b") 0).2
        { defaultReq with session_id := 1, model := some "qwen2.5:14b" }).2.sessions).map
      Session.model = some "llama3.1:8b" ∧
    resolvedModel (infer okBackends (create_session initBridge (some "llama3.1:8b") 0).2
        { defaultReq with session_id := 1, model := some "qwen2.5:14b" }).2
      { defaultReq with session_id := 1 } = "llama3.1:8b" :=
  C4_override_transient okBackends initBridge "llama3.1:8b" "qwen2.5:14b" 0
    { defaultReq with session_id := 1, model := some "qwen2.5:14b" }
    { defaultReq with session_id := 1 }
    (by decide) (by decide) rfl rfl rfl rfl

/-- A raw `close_session` message for session 1. -/
def rawCloseReq : RawRequest :=
  { action := some "close_session", session_id := some 1, prompt := none
    max_tokens := none, temperature := none, model := none }

/-- A raw message with no `action` field. -/
def rawNoAction : RawRequest :=
  { action := none, session_id := none, prompt := some "hi"
    max_tokens := none, temperature := none, model := none }

/-- C8: `close_session` removes the entry if present, leaves every other
session untouched, is idempotent, is a no-op on an unknown or already-closed
id, and the `close_session` action always replies with success. -/
theorem C8_close_session (bk : Backends) (br : Bridge) (sid now : Nat)
    (request : RawRequest) (ha : request.action = some "close_session") :
    dictGet sid (close_session br sid).sessions = none ∧
    (∀ j, j ≠ sid → dictGet j (close_session br sid).sessions = dictGet j br.sessions) ∧
    close_session (close_session br sid) sid = close_session br sid ∧
    (dictGet sid br.sessions = none → close_session br sid = br) ∧
    (process_request bk br now request).1 = Reply.closeOk := by
  refine ⟨dictGet_del_self sid br.sessions, ?_, ?_, ?_, ?_⟩
  · intro j hj
    exact dictGet_del_ne hj br.sessions
  · show ({ br with sessions := dictDel sid (dictDel sid br.sessions) } : Bridge) = _
    rw [dictDel_del]
    rfl
  · intro h
    show ({ br with sessions := dictDel sid br.sessions } : Bridge) = br
    rw [dictDel_of_get_none h]
  · simp only [process_request, ha, Option.getD_some]
    rw [if_neg (by decide), if_neg (by decide), if_neg (by decide), if_neg (by decide),
      if_neg (by decide), if_pos trivial]

/-- C8 witness: closing session 1 of the sample bridge removes it, closing
it again is the same state, re-closing the never-created id 7 is a no-op,
and the reply is success. -/
theorem C8_close_session_witness :
    dictGet 1 (close_session sampleBridge 1).sessions = none ∧
    close_session (close_session sampleBridge 1) 1 = close_session sampleBridge 1 ∧
    close_session sampleBridge 7 = sampleBridge ∧
    (process_request okBackends sampleBridge 0 rawCloseReq).1 = Reply.closeOk :=
  ⟨(C8_close_session okBackends sampleBridge 1 0 rawCloseReq rfl).1,
   (C8_close_session okBackends sampleBridge 1 0 rawCloseReq rfl).2.2.1,
   (C8_close_session okBackends sampleBridge 7 0 rawCloseReq rfl).2.2.2.1 (by decide),
   (C8_close_session okBackends sampleBridge 1 0 rawCloseReq rfl).2.2.2.2⟩

/-- C10: a parsed request without an `action` field is dispatched as an
inference request — the action tag defaults to `"infer"` and the request
fields default to session 0, empty prompt, 256 max tokens, temperature
0.7 — and the reply is never the unknown-action error. -/
theorem C10_default_action (bk : Backends) (br : Bridge) (now : Nat) (request : RawRequest)
    (ha : request.action = none) :
    process_request bk br now request =
      (Reply.inferReply
        (infer bk br
          { session_id := request.session_id.getD 0
            prompt := request.prompt.getD ""
            max_tokens := request.max_tokens.getD 256
            temperature := request.temperature.getD (7/10)
            model := request.model }).1,
       (infer bk br
          { session_id := request.session_id.getD 0
            prompt := request.prompt.getD ""
            max_tokens := request.max_tokens.getD 256
            temperature := request.temperature.getD (7/10)
            model := request.model }).2) ∧
    (∀ a, (process_request bk br now request).1 ≠ Reply.unknownAction a) := by
  have hmain : process_request bk br now request =
      (Reply.inferReply
        (infer bk br
          { session_id := request.session_id.getD 0
            prompt := request.prompt.getD ""
            max_tokens := request.max_tokens.getD 256
            temperature := request.temperature.getD (7/10)
            model := request.model }).1,
       (infer bk br
          { session_id := request.session_id.getD 0
            prompt := request.prompt.getD ""
            max_tokens := request.max_tokens.getD 256
            temperature := request.temperature.getD (7/10)
            model := request.model }).2) := by
    simp only [process_request, ha, Option.getD_none]
    rw [if_neg (by decide), if_neg (by decide), if_neg (by decide), if_neg (by decide),
      if_neg (by decide), if_neg (by decide), if_pos trivial]
  exact ⟨hmain, fun a h => by rw [hmain] at h; exact Reply.noConfusion h⟩

/-- C10 witness: the actionless message is not answered with the
unknown-action error. -/
theorem C10_default_action_witness :
    (process_request okBackends initBridge 0 rawNoAction).1 ≠ Reply.unknownAction "infer" :=
  (C10_default_action okBackends initBridge 0 rawNoAction rfl).2 "infer"

/-- One registry operation of the bridge: `create_session` (with its model
argument and clock value) or `close_session`. -/
inductive BridgeOp where
  | create (model : Option String) (now : Nat)
  | close (id : Nat)

/-- Apply one registry operation to the bridge state. -/
def applyOp (br : Bridge) : BridgeOp → Bridge
  | .create model now => (create_session br model now).2
  | .close id => close_session br id

/-- Run a sequence of registry operations. -/
def runOps (br : Bridge) (ops : List BridgeOp) : Bridge := ops.foldl applyOp br

/-- The session ids handed out by the create operations of a run, in
order. -/
def createdIds (br : Bridge) : List BridgeOp → List Nat
  | [] => []
  | .create model now :: ops =>
    (create_session br model now).1 :: createdIds (create_session br model now).2 ops
  | .close id :: ops => createdIds (close_session br id) ops

/-- Every id handed out along a run is at least the starting counter
value. -/
theorem createdIds_ge (ops : List BridgeOp) :
    ∀ (br : Bridge) (i : Nat), i ∈ createdIds br ops → br.next_session_id ≤ i := by
  induction ops with
  | nil =>
    intro br i h
    cases h
  | cons op t ih =>
    intro br i h
    cases op with
    | create model now =>
      rcases List.mem_cons.mp h with h | h
      · subst h
        exact le_refl _
      · exact le_trans (Nat.le_succ _) (ih _ i h)
    | close id =>
      exact ih (close_session br id) i h

/-- The ids handed out along a run are strictly increasing. -/
theorem createdIds_chain (ops : List BridgeOp) :
    ∀ br : Bridge, List.Chain' (· < ·) (createdIds br ops) := by
  induction ops with
  | nil =>
    intro br
    exact List.chain'_nil
  | cons op t ih =>
    intro br
    cases op with
    | create model now =>
      refine List.chain'_cons'.mpr ⟨?_, ih _⟩
      intro b hb
      have hmem := List.mem_of_mem_head? hb
      exact lt_of_lt_of_le (Nat.lt_succ_self _)
        (createdIds_ge t (create_session br model now).2 b hmem)
    | close id =>
      exact ih _

/-- Ids at or above the counter are unused in the registry. -/
def freshAbove (br : Bridge) : Prop :=
  ∀ k, br.next_session_id ≤ k → dictGet k br.sessions = none

theorem freshAbove_init : freshAbove initBridge := fun _ _ => rfl

theorem freshAbove_applyOp {br : Bridge} (h : freshAbove br) (op : BridgeOp) :
    freshAbove (applyOp br op) := by
  cases op with
  | create model now =>
    intro k hk
    have hk' : br.next_session_id + 1 ≤ k := hk
    have hne : k ≠ br.next_session_id := by omega
    show dictGet k (dictSet br.next_session_id _ br.sessions) = none
    rw [dictGet_set_ne hne]
    exact h k (by omega)
  | close id =>
    intro k hk
    show dictGet k (dictDel id br.sessions) = none
    by_cases hke : k = id
    · subst hke
      exact dictGet_del_self _ _
    · rw [dictGet_del_ne hke]
      exact h k hk

theorem freshAbove_runOps (ops : List BridgeOp) :
    ∀ br : Bridge, freshAbove br → freshAbove (runOps br ops) := by
  induction ops with
  | nil => exact fun _ h => h
  | cons op t ih => exact fun br h => ih _ (freshAbove_applyOp h op)

/-- C9: session ids come from a monotonic counter starting at 1.  The ids
handed out along any sequence of create and close operations are strictly
increasing (hence all distinct and never reused, even after a close), every
id is positive, each newly allocated id is unused in the registry at
allocation time, and the new session is stored with sticky model
`model or default` and a zero request count. -/
theorem C9_session_ids (ops : List BridgeOp) (model : Option String) (now : Nat) :
    List.Chain' (· < ·) (createdIds initBridge ops) ∧
    (∀ i, i ∈ createdIds initBridge ops → 1 ≤ i) ∧
    dictGet (create_session (runOps initBridge ops) model now).1
      (runOps initBridge ops).sessions = none ∧
    dictGet (create_session (runOps initBridge ops) model now).1
        (create_session (runOps initBridge ops) model now).2.sessions =
      some { model := pyOrStr model (runOps initBridge ops).default_model
             created := now
             requests := 0 } := by
  refine ⟨createdIds_chain ops initBridge, ?_, ?_, ?_⟩
  · exact fun i h => createdIds_ge ops initBridge i h
  · exact freshAbove_runOps ops initBridge freshAbove_init _ (le_refl _)
  · exact dictGet_set_self _ _ _

/-- A sample operation sequence: two creates, a close, another create. -/
def sampleOps : List BridgeOp :=
  [.create (some "llama3.1:8b") 3, .create none 4, .close 1, .create none 9]

/-- C9 witness: the sample run hands out ids 1, 2, 3 — strictly increasing,
and id 1 is not reused after its close. -/
theorem C9_session_ids_witness :
    createdIds initBridge sampleOps = [1, 2, 3] ∧
    List.Chain' (· < ·) (createdIds initBridge sampleOps) ∧
    3 ∈ createdIds initBridge sampleOps ∧ 1 ≤ 3 :=
  ⟨by decide, (C9_session_ids sampleOps none 0).1, by decide,
   (C9_session_ids sampleOps none 0).2.1 3 (by decide)⟩

end ArqonBridge
